import Mathlib

/-!
Verification development for `phishing_detector.py`, a single-file phishing
scorer.  The Python class `PhishingDetector` is embedded shallowly:

* External collaborators are parameters: the spaCy NER pipeline is an oracle
  `NER : String → List Entity`; the Python `re` module is an oracle
  `RegexEngine : String → String → Except String (List String)` representing
  `re.findall(pattern, text, re.IGNORECASE)` — `Except.ok` is the list of
  matched substrings (rendered through `str`, as `map(str, matches)` does in
  the source), `Except.error` is an `re.error` with its message.
* The JSON parser (`json.load`) is likewise an oracle
  `String → Except String Json`; the filesystem is `String → Option String`
  mapping a path to the file contents when the file exists.
* Python exceptions become the `PyErr` sum; fallible operations return
  `Except PyErr _`.
* Methods that in Python could mutate `self` are translated in state-passing
  style: they take the detector record and return it in the result, so frame
  properties are statable.

`PhishingDetector.init` embeds `__init__` (source lines 8–16).  A crucial
point of the source: `_load_config` is defined as a *nested function inside*
`__init__`, textually after the `try`/`except` block (lines 18–29); it is
never bound as an attribute of `self` nor of the class.  Hence the call
`self._load_config(config_path)` on line 12 raises
`AttributeError("'PhishingDetector' object has no attribute '_load_config'")`,
which the `except Exception` clause re-wraps as
`RuntimeError("Initialization failed: ...")`.  The embedding of `__init__`
reflects exactly this attribute-lookup semantics.  The body of the nested
loader is embedded separately as `_load_config` so its (unreachable) error
branches can still be inspected.
-/

/-- A minimal JSON value model for what `json.load` can return.  Numbers are
modelled as integers (the config only carries integer weights); `truthy`
mirrors Python truthiness, which line 23 (`if not config`) tests. -/
inductive Json where
  | null
  | bool (b : Bool)
  | num (n : Int)
  | str (s : String)
  | arr (elems : List Json)
  | obj (fields : List (String × Json))

/-- Python truthiness of a JSON value (`if not config:` on line 23). -/
def Json.truthy : Json → Bool
  | .null => false
  | .bool b => b
  | .num n => n != 0
  | .str s => s != ""
  | .arr l => !l.isEmpty
  | .obj l => !l.isEmpty

/-- Python exception values relevant to the script, each carrying `str(e)`. -/
inductive PyErr where
  | attributeError (msg : String)
  | fileNotFoundError (msg : String)
  | valueError (msg : String)
  | runtimeError (msg : String)
  | osError (msg : String)
  deriving DecidableEq, Repr

/-- `str(e)` of an exception: its message. -/
def PyErr.pyStr : PyErr → String
  | .attributeError m => m
  | .fileNotFoundError m => m
  | .valueError m => m
  | .runtimeError m => m
  | .osError m => m

/-- A spaCy entity as the detector reads it: `ent.text` and `ent.label_`
(source line 52). -/
structure Entity where
  text : String
  label_ : String
  deriving DecidableEq, Repr

/-- The NER collaborator: `self.nlp(email_text).ents` (lines 11 and 51–52). -/
def NER : Type := String → List Entity

/-- The regex collaborator: `re.findall(pattern, text, re.IGNORECASE)`
(line 43); `Except.error` is the `re.error` branch (line 47). -/
def RegexEngine : Type := String → String → Except String (List String)

/-- The detector state after a (hypothetical) successful construction:
`self.suspicious_patterns` and `self.scoring_rules` (lines 13–14), modelled
as association lists (Python dicts preserve insertion order and the loop on
line 41 iterates them in order).  `self.nlp` is the external oracle passed
to each call, and `self.config` is only read on lines 13–14 to extract these
two fields, so neither is stored in the record. -/
structure PhishingDetector where
  suspicious_patterns : List (String × String)
  scoring_rules : List (String × Int)
  deriving DecidableEq, Repr

/-- Python `dict.get(key, 0)` on an association list (lines 45 and 54). -/
def dictGet (rules : List (String × Int)) (key : String) : Int :=
  match rules.find? (fun p => p.1 == key) with
  | some p => p.2
  | none => 0

/-- Embedding of the nested loader body, source lines 18–29.  `fs` yields
`none` when `Path(path).open` raises `FileNotFoundError`; `jsonLoad` models
`json.load`, erring on `json.JSONDecodeError`.  The `ValueError` for an
empty config (line 24) escapes the inner `try` uncaught, as in Python
(a plain `ValueError` matches neither `except` clause). -/
def _load_config (jsonLoad : String → Except String Json)
    (fs : String → Option String) (path : String) : Except PyErr Json :=
  match fs path with
  | none => Except.error (.fileNotFoundError ("Config file not found at " ++ path))
  | some contents =>
    match jsonLoad contents with
    | Except.error e => Except.error (.valueError ("Invalid JSON format: " ++ e))
    | Except.ok config =>
      if config.truthy then Except.ok config
      else Except.error (.valueError "Empty or invalid config file")

/-- Embedding of `__init__` (lines 8–16).  `spacyFail` is `some msg` when
`spacy.load` (line 11) raises.  Otherwise execution reaches
`self._load_config(config_path)` on line 12; since `_load_config` is only a
local function defined further down in the body (lines 18–29) and never an
attribute, the lookup raises `AttributeError` — so the `try` body never
produces a detector, and the `except Exception` clause (lines 15–16) wraps
whichever exception occurred in `RuntimeError("Initialization failed: ...")`. -/
def PhishingDetector.init (spacyFail : Option String)
    (jsonLoad : String → Except String Json) (fs : String → Option String)
    (config_path : String) : Except PyErr PhishingDetector :=
  let tryBody : Except PyErr PhishingDetector :=
    match spacyFail with
    | some e => Except.error (.osError e)
    | none => Except.error (.attributeError
        "\x27PhishingDetector\x27 object has no attribute \x27_load_config\x27")
  match tryBody with
  | Except.error e => Except.error (.runtimeError ("Initialization failed: " ++ e.pyStr))
  | Except.ok d => Except.ok d

/-- The whitespace characters Python `str.strip()` removes (ASCII range):
space, tab, newline, carriage return, vertical tab, form feed. -/
def isPySpace (c : Char) : Bool :=
  c == ' ' || c == '\t' || c == '\n' || c == '\r' ||
  c == Char.ofNat 11 || c == Char.ofNat 12

/-- Python `str.strip()`: drop whitespace from both ends (line 34). -/
def pyStrip (s : String) : String :=
  String.mk (((s.toList.dropWhile isPySpace).reverse.dropWhile isPySpace).reverse)

/-- The argument of `analyze_email`: Python is untyped, so the input is
either a `str` or a value of some other type (`nonStr`, carrying only an
opaque tag — the method reads nothing else of it, line 34 just checks
`isinstance(email_text, str)`). -/
inductive PyInput where
  | str (s : String)
  | nonStr (tag : String)
  deriving DecidableEq, Repr

/-- The flag appended on a pattern match, line 46:
`f"{label} found: {', '.join(map(str, matches))}"`. -/
def matchFlag (label : String) (ms : List String) : String :=
  label ++ " found: " ++ String.intercalate ", " ms

/-- The flag appended on a malformed regex, line 48:
`f"Invalid regex pattern for {label}: {str(e)}"`. -/
def invalidFlag (label : String) (e : String) : String :=
  "Invalid regex pattern for " ++ label ++ ": " ++ e

/-- One iteration of the pattern loop, source lines 41–48: run
`re.findall`; on a nonempty match list add the configured weight and append
one flag; on an empty match list do nothing; on `re.error` append one
descriptive flag and leave the score alone. -/
def patternStep (re : RegexEngine) (rules : List (String × Int)) (text : String)
    (acc : Int × List String) (entry : String × String) : Int × List String :=
  match re entry.2 text with
  | Except.ok ms =>
    if ms.isEmpty then acc
    else (acc.1 + dictGet rules entry.1, acc.2 ++ [matchFlag entry.1 ms])
  | Except.error e => (acc.1, acc.2 ++ [invalidFlag entry.1 e])

/-- The organizations the NER step extracts, line 52:
`[ent.text for ent in doc.ents if ent.label_ == "ORG"]`. -/
def orgsOf (nlp : NER) (text : String) : List String :=
  ((nlp text).filter (fun e => e.label_ == "ORG")).map (fun e => e.text)

/-- Embedding of `analyze_email` (lines 32–57) in state-passing style.
Validation (lines 34–35) raises `ValueError` on a non-string or an
effectively-empty string; then the pattern loop folds `patternStep` over
`suspicious_patterns` starting from `(0, [])` (lines 37–48); then the NER
step (lines 51–55) adds the `missing_organization` weight and one flag when
no ORG entity is present; line 57 returns `(score, flags)` — the detector is
returned unchanged since the body never assigns to `self`. -/
def analyze_email (nlp : NER) (re : RegexEngine) (d : PhishingDetector)
    (email_text : PyInput) : Except PyErr (Int × List String × PhishingDetector) :=
  match email_text with
  | .nonStr _ => Except.error (.valueError "Invalid or empty email text")
  | .str text =>
    if pyStrip text = "" then Except.error (.valueError "Invalid or empty email text")
    else
      let sf := d.suspicious_patterns.foldl (patternStep re d.scoring_rules text) (0, [])
      if (orgsOf nlp text).isEmpty then
        Except.ok (sf.1 + dictGet d.scoring_rules "missing_organization",
                   sf.2 ++ ["No organization detected"], d)
      else
        Except.ok (sf.1, sf.2, d)

/-- The verdict line of `print_results`, lines 67–72. -/
def verdictLine (score : Int) : String :=
  if 7 ≤ score then "🛑 Likely phishing attempt."
  else if 4 ≤ score ∧ score < 7 then "⚠️ Suspicious email — exercise caution."
  else "✅ Email appears safe."

/-- Embedding of `print_results` (lines 59–72) in state-passing style: the
list of printed lines, plus the detector, which the body never assigns to.
`flags or ["None"]` (line 64) is `["None"]` exactly when `flags` is empty. -/
def print_results (d : PhishingDetector) (score : Int) (flags : List String) :
    List String × PhishingDetector :=
  (["=== PHISHING DETECTION RESULTS ===",
    "Email Analysis Score: " ++ toString score,
    "Flags:"]
   ++ (if flags.isEmpty then ["None"] else flags).map (fun f => "- " ++ f)
   ++ [verdictLine score], d)

/-- Per-entry score contribution of the pattern loop, for stating totals. -/
def entryScore (re : RegexEngine) (rules : List (String × Int)) (text : String)
    (entry : String × String) : Int :=
  match re entry.2 text with
  | Except.ok ms => if ms.isEmpty then 0 else dictGet rules entry.1
  | Except.error _ => 0

/-- Per-entry flags contribution of the pattern loop. -/
def entryFlags (re : RegexEngine) (text : String) (entry : String × String) :
    List String :=
  match re entry.2 text with
  | Except.ok ms => if ms.isEmpty then [] else [matchFlag entry.1 ms]
  | Except.error e => [invalidFlag entry.1 e]

/-- Whether an entry triggers a pattern-match flag (valid regex, some match). -/
def entryTriggered (re : RegexEngine) (text : String) (entry : String × String) :
    Bool :=
  match re entry.2 text with
  | Except.ok ms => !ms.isEmpty
  | Except.error _ => false

/-- Concrete NER oracle for witnesses: no entities at all. -/
def nerNone : NER := fun _ => []

/-- Concrete NER oracle for witnesses: one ORG entity. -/
def nerOrg : NER := fun _ => [⟨"Acme Corp", "ORG"⟩]

/-- Whether `sub` is an initial segment of `l` (helper for `reTest`). -/
def leadsWith : List Char → List Char → Bool
  | _, [] => true
  | [], _ :: _ => false
  | c :: cs, d :: ds => c == d && leadsWith cs ds

/-- Whether `sub` occurs contiguously inside `l` (helper for `reTest`). -/
def occursIn : List Char → List Char → Bool
  | [], sub => sub.isEmpty
  | c :: rest, sub => leadsWith (c :: rest) sub || occursIn rest sub

/-- Concrete regex oracle for witnesses: the pattern `"bad"` is malformed;
any other pattern matches itself literally (case-sensitively — enough for
concrete evaluation). -/
def reTest : RegexEngine := fun pattern text =>
  if pattern == "bad" then Except.error "unbalanced parenthesis"
  else if occursIn text.toList pattern.toList then Except.ok [pattern]
  else Except.ok []

/-! ## Helper lemmas -/

/-- `patternStep` decomposes into the per-entry score and flag contributions. -/
lemma patternStep_eq (re : RegexEngine) (rules : List (String × Int)) (text : String)
    (s : Int) (f : List String) (e : String × String) :
    patternStep re rules text (s, f) e =
      (s + entryScore re rules text e, f ++ entryFlags re text e) := by
  unfold patternStep entryScore entryFlags
  cases h : re e.2 text with
  | ok ms => by_cases hm : ms.isEmpty <;> simp [hm]
  | error err => simp

/-- The pattern loop is the sum of per-entry scores and the concatenation of
per-entry flags. -/
lemma foldl_patternStep (re : RegexEngine) (rules : List (String × Int)) (text : String) :
    ∀ (ps : List (String × String)) (s : Int) (f : List String),
    List.foldl (patternStep re rules text) (s, f) ps =
      (s + (ps.map (entryScore re rules text)).sum,
       f ++ ps.flatMap (entryFlags re text)) := by
  intro ps
  induction ps with
  | nil => intro s f; simp
  | cons e ps ih =>
    intro s f
    simp only [List.foldl_cons, patternStep_eq, ih, List.map_cons, List.sum_cons,
      List.flatMap_cons, List.append_assoc, add_assoc]

/-- Each triggered entry contributes exactly one flag, so the trigger count
bounds the flag count of the pattern loop. -/
lemma countP_triggered_le_flags (re : RegexEngine) (text : String) :
    ∀ ps : List (String × String),
    ps.countP (entryTriggered re text) ≤ (ps.flatMap (entryFlags re text)).length := by
  intro ps
  induction ps with
  | nil => simp
  | cons e ps ih =>
    simp only [List.countP_cons, List.flatMap_cons, List.length_append]
    have he : (if entryTriggered re text e = true then 1 else 0) ≤ (entryFlags re text e).length := by
      unfold entryTriggered entryFlags
      cases h : re e.2 text with
      | ok ms => by_cases hm : ms.isEmpty <;> simp [hm]
      | error err => simp
    omega

/-- On a validated string the body of `analyze_email` is the pattern fold
followed by the organization check. -/
lemma analyze_email_str_eq (nlp : NER) (re : RegexEngine) (d : PhishingDetector)
    (text : String) (h : pyStrip text ≠ "") :
    analyze_email nlp re d (.str text) =
      (if (orgsOf nlp text).isEmpty then
         Except.ok ((List.foldl (patternStep re d.scoring_rules text) (0, []) d.suspicious_patterns).1
             + dictGet d.scoring_rules "missing_organization",
           (List.foldl (patternStep re d.scoring_rules text) (0, []) d.suspicious_patterns).2
             ++ ["No organization detected"], d)
       else
         Except.ok ((List.foldl (patternStep re d.scoring_rules text) (0, []) d.suspicious_patterns).1,
           (List.foldl (patternStep re d.scoring_rules text) (0, []) d.suspicious_patterns).2, d)) := by
  simp only [analyze_email]
  rw [if_neg h]

/-! ## Claim theorems -/

/-- Claim C2: the config loader is defined as a nested local function inside
`__init__` and is never bound as an attribute, so for every `configPath` —
regardless of the filesystem and of the JSON parser, i.e. without the loader
body ever executing — construction with a working NER collaborator raises
the wrapping `RuntimeError("Initialization failed: ...")` carrying the
`AttributeError` message, and none of the loader error branches is reached. -/
theorem init_always_wraps_runtimeError :
    ∀ (jsonLoad : String → Except String Json) (fs : String → Option String)
      (config_path : String),
    PhishingDetector.init none jsonLoad fs config_path =
      Except.error (PyErr.runtimeError
        ("Initialization failed: \x27PhishingDetector\x27 object has no attribute \x27_load_config\x27")) := by
  intro jsonLoad fs config_path
  rfl

/-- Claim C1 (code bug evidence): with a missing config file at
`"missing.json"`, construction does not fail with the configuration error —
it fails with the initialization `RuntimeError` wrapping the
`AttributeError`, while the (unreachable) loader body would have produced
the `FileNotFoundError` naming the path that the spec promises. -/
theorem init_missing_config_divergence :
    PhishingDetector.init none (fun _ => Except.error "no parse") (fun _ => none) "missing.json" =
      Except.error (PyErr.runtimeError
        ("Initialization failed: \x27PhishingDetector\x27 object has no attribute \x27_load_config\x27")) ∧
    _load_config (fun _ => Except.error "no parse") (fun _ => none) "missing.json" =
      Except.error (PyErr.fileNotFoundError "Config file not found at missing.json") := by
  exact ⟨rfl, rfl⟩

/-- Claim C5: the verdict of `print_results` is the likely-phishing line
exactly when `score ≥ 7`, the suspicious line exactly when `4 ≤ score < 7`,
and the safe line otherwise; the verdict line is among the printed lines;
and scores 7, 4 and 3 produce the three respective verdicts. -/
theorem print_results_verdict_thresholds :
    ∀ (score : Int) (d : PhishingDetector) (flags : List String),
    (verdictLine score = "🛑 Likely phishing attempt." ↔ 7 ≤ score) ∧
    (verdictLine score = "⚠️ Suspicious email — exercise caution." ↔ (4 ≤ score ∧ score < 7)) ∧
    (verdictLine score = "✅ Email appears safe." ↔ score < 4) ∧
    verdictLine score ∈ (print_results d score flags).1 ∧
    verdictLine 7 = "🛑 Likely phishing attempt." ∧
    verdictLine 4 = "⚠️ Suspicious email — exercise caution." ∧
    verdictLine 3 = "✅ Email appears safe." := by
  intro score d flags
  refine ⟨?_, ?_, ?_, ?_, by decide, by decide, by decide⟩
  · unfold verdictLine
    split_ifs with h1 h2
    · exact iff_of_true rfl h1
    · exact iff_of_false (by decide) h1
    · exact iff_of_false (by decide) h1
  · unfold verdictLine
    split_ifs with h1 h2
    · exact iff_of_false (by decide) (by omega)
    · exact iff_of_true rfl h2
    · exact iff_of_false (by decide) h2
  · unfold verdictLine
    split_ifs with h1 h2
    · exact iff_of_false (by decide) (by omega)
    · exact iff_of_false (by decide) (by omega)
    · exact iff_of_true rfl (by omega)
  · simp [print_results]

/-- Claim C6: a non-string input, or a string that is empty after stripping,
makes `analyze_email` fail with the validation `ValueError` — uniformly in
the NER and regex oracles, so neither pattern matching nor the NER
collaborator influences the outcome. -/
theorem analyze_email_rejects_invalid_input :
    ∀ (nlp : NER) (re : RegexEngine) (d : PhishingDetector),
    (∀ tag, analyze_email nlp re d (.nonStr tag) =
        Except.error (PyErr.valueError "Invalid or empty email text")) ∧
    (∀ text, pyStrip text = "" → analyze_email nlp re d (.str text) =
        Except.error (PyErr.valueError "Invalid or empty email text")) := by
  intro nlp re d
  refine ⟨fun tag => rfl, fun text h => ?_⟩
  simp only [analyze_email]
  rw [if_pos h]

/-- Witness for C6 at the concrete empty string. -/
theorem analyze_email_rejects_invalid_input_witness :
    analyze_email nerNone reTest ⟨[], []⟩ (.str "") =
      Except.error (PyErr.valueError "Invalid or empty email text") :=
  (analyze_email_rejects_invalid_input nerNone reTest ⟨[], []⟩).2 "" rfl

/-- Claim C10: a non-empty string all of whose characters are whitespace is
rejected by `analyze_email` with the very same validation `ValueError` as
the empty string, because `str.strip()` reduces it to the empty string. -/
theorem analyze_email_rejects_whitespace_only :
    ∀ (nlp : NER) (re : RegexEngine) (d : PhishingDetector) (text : String),
    text ≠ "" → (∀ c ∈ text.toList, isPySpace c = true) →
    analyze_email nlp re d (.str text) =
      Except.error (PyErr.valueError "Invalid or empty email text") := by
  intro nlp re d text hne hall
  have hstrip : pyStrip text = "" := by
    unfold pyStrip
    rw [List.dropWhile_eq_nil_iff.mpr hall]
    rfl
  simp only [analyze_email]
  rw [if_pos hstrip]

/-- Witness for C10 at the concrete two-space string. -/
theorem analyze_email_rejects_whitespace_only_witness :
    analyze_email nerNone reTest ⟨[], []⟩ (.str "  ") =
      Except.error (PyErr.valueError "Invalid or empty email text") :=
  analyze_email_rejects_whitespace_only nerNone reTest ⟨[], []⟩ "  " (by decide) (by decide)

/-- Claim C3: for an entry whose regex is valid (the engine returns `ok ms`),
one iteration of the pattern loop adds the weight configured for the label
(0 when the label has no scoring rule, by `dictGet`) and appends exactly one
flag listing the matched substrings when `ms` is nonempty, and leaves score
and flags untouched when `ms` is empty. -/
theorem patternStep_match_behavior :
    ∀ (re : RegexEngine) (rules : List (String × Int)) (text : String)
      (s : Int) (f : List String) (label pattern : String) (ms : List String),
    re pattern text = Except.ok ms →
    patternStep re rules text (s, f) (label, pattern) =
      (if ms.isEmpty then (s, f)
       else (s + dictGet rules label, f ++ [matchFlag label ms])) := by
  intro re rules text s f label pattern ms h
  simp only [patternStep, h]

/-- Witness for C3: a matching entry with weight 5 contributes 5 and one
flag naming the match. -/
theorem patternStep_match_behavior_witness :
    patternStep reTest [("urgent", 5)] "urgent action" (0, []) ("urgent", "urgent") =
      (5, ["urgent found: urgent"]) := by
  have h := patternStep_match_behavior reTest [("urgent", 5)] "urgent action"
    0 [] "urgent" "urgent" ["urgent"] (by rfl)
  rw [h]; decide

/-- Claim C4: on validated text, `analyze_email` consults the NER oracle and
— exactly when the entity list holds no entity labelled ORG — adds the
`missing_organization` weight (0 when unset) to the pattern-loop score and
appends one flag; when an ORG entity is present the pattern-loop result
passes through unchanged. -/
theorem analyze_email_ner_step :
    ∀ (nlp : NER) (re : RegexEngine) (d : PhishingDetector) (text : String),
    pyStrip text ≠ "" →
    analyze_email nlp re d (.str text) =
      (let sf := List.foldl (patternStep re d.scoring_rules text) (0, []) d.suspicious_patterns
       if (orgsOf nlp text).isEmpty then
         Except.ok (sf.1 + dictGet d.scoring_rules "missing_organization",
                    sf.2 ++ ["No organization detected"], d)
       else Except.ok (sf.1, sf.2, d)) := by
  intro nlp re d text h
  simp only [analyze_email]
  rw [if_neg h]

/-- Witness for C4: with no entities the configured weight 3 is added and
the missing-organization flag appended. -/
theorem analyze_email_ner_step_witness :
    analyze_email nerNone reTest ⟨[], [("missing_organization", 3)]⟩ (.str "hello") =
      Except.ok ((3 : Int), ["No organization detected"],
        (⟨[], [("missing_organization", 3)]⟩ : PhishingDetector)) := by
  have h := analyze_email_ner_step nerNone reTest
    ⟨[], [("missing_organization", 3)]⟩ "hello" (by decide)
  rw [h]
  rfl

/-- Claim C7: an entry whose regex the engine rejects does not fail the
call: the iteration leaves the score unchanged and appends exactly one
descriptive flag; the loop then continues with the remaining entries; and
the whole analysis still returns a result (the NER step included). -/
theorem patternStep_invalid_regex_recovery :
    ∀ (re : RegexEngine) (rules : List (String × Int)) (text : String)
      (s : Int) (f : List String) (label pattern err : String),
    re pattern text = Except.error err →
    (patternStep re rules text (s, f) (label, pattern) = (s, f ++ [invalidFlag label err])) ∧
    (∀ (ps₁ ps₂ : List (String × String)),
      List.foldl (patternStep re rules text) (s, f) (ps₁ ++ (label, pattern) :: ps₂) =
        List.foldl (patternStep re rules text)
          (patternStep re rules text (List.foldl (patternStep re rules text) (s, f) ps₁)
            (label, pattern)) ps₂) ∧
    (∀ (nlp : NER) (d : PhishingDetector), pyStrip text ≠ "" →
      ∃ r, analyze_email nlp re d (.str text) = Except.ok r) := by
  intro re rules text s f label pattern err h
  refine ⟨by simp [patternStep, h], ?_, ?_⟩
  · intro ps₁ ps₂
    rw [List.foldl_append, List.foldl_cons]
  · intro nlp d hne
    rw [analyze_email_str_eq nlp re d text hne]
    by_cases ho : (orgsOf nlp text).isEmpty
    · exact ⟨((List.foldl (patternStep re d.scoring_rules text) (0, []) d.suspicious_patterns).1
          + dictGet d.scoring_rules "missing_organization",
        (List.foldl (patternStep re d.scoring_rules text) (0, []) d.suspicious_patterns).2
          ++ ["No organization detected"], d), by rw [if_pos ho]⟩
    · exact ⟨((List.foldl (patternStep re d.scoring_rules text) (0, []) d.suspicious_patterns).1,
        (List.foldl (patternStep re d.scoring_rules text) (0, []) d.suspicious_patterns).2, d),
        by rw [if_neg ho]⟩

/-- Witness for C7 at a concrete malformed pattern. -/
theorem patternStep_invalid_regex_recovery_witness :
    patternStep reTest [] "hello" (0, []) ("lbl", "bad") =
      (0, ["Invalid regex pattern for lbl: unbalanced parenthesis"]) := by
  have h := (patternStep_invalid_regex_recovery reTest [] "hello" 0 [] "lbl" "bad"
    "unbalanced parenthesis" (by rfl)).1
  rw [h]; decide

/-- Claim C8: on validated text, `analyze_email` succeeds and its score is
the sum of the triggered configured weights (the per-entry contributions
plus the `missing_organization` weight when no ORG entity is found), and its
flag count is at least the number of pattern-match triggers plus one when no
ORG entity is found. -/
theorem analyze_email_score_totals :
    ∀ (nlp : NER) (re : RegexEngine) (d : PhishingDetector) (text : String),
    pyStrip text ≠ "" →
    ∃ (score : Int) (flags : List String),
      analyze_email nlp re d (.str text) = Except.ok (score, flags, d) ∧
      score = (d.suspicious_patterns.map (entryScore re d.scoring_rules text)).sum +
              (if (orgsOf nlp text).isEmpty then dictGet d.scoring_rules "missing_organization" else 0) ∧
      d.suspicious_patterns.countP (entryTriggered re text) +
        (if (orgsOf nlp text).isEmpty then 1 else 0) ≤ flags.length := by
  intro nlp re d text h
  rw [analyze_email_str_eq nlp re d text h]
  have hfold := foldl_patternStep re d.scoring_rules text d.suspicious_patterns 0 []
  have hcount := countP_triggered_le_flags re text d.suspicious_patterns
  by_cases ho : (orgsOf nlp text).isEmpty
  · refine ⟨(List.foldl (patternStep re d.scoring_rules text) (0, []) d.suspicious_patterns).1
        + dictGet d.scoring_rules "missing_organization",
      (List.foldl (patternStep re d.scoring_rules text) (0, []) d.suspicious_patterns).2
        ++ ["No organization detected"], by rw [if_pos ho], ?_, ?_⟩
    · rw [hfold]; simp [ho]
    · rw [hfold]
      simp only [ho, if_true, List.nil_append, List.length_append, List.length_cons,
        List.length_nil]
      omega
  · refine ⟨(List.foldl (patternStep re d.scoring_rules text) (0, []) d.suspicious_patterns).1,
      (List.foldl (patternStep re d.scoring_rules text) (0, []) d.suspicious_patterns).2,
      by rw [if_neg ho], ?_, ?_⟩
    · rw [hfold]; simp [ho]
    · rw [hfold]
      simp only [ho, List.nil_append, if_false, Bool.false_eq_true, ite_false]
      omega

/-- Witness for C8 with one matching weighted pattern and no ORG entity. -/
theorem analyze_email_score_totals_witness :
    ∃ (score : Int) (flags : List String),
      analyze_email nerNone reTest
        ⟨[("urgent", "urgent")], [("urgent", 5), ("missing_organization", 3)]⟩
        (.str "urgent action") = Except.ok (score, flags,
          (⟨[("urgent", "urgent")], [("urgent", 5), ("missing_organization", 3)]⟩ : PhishingDetector)) ∧
      score = ((⟨[("urgent", "urgent")], [("urgent", 5), ("missing_organization", 3)]⟩ :
          PhishingDetector).suspicious_patterns.map
            (entryScore reTest [("urgent", 5), ("missing_organization", 3)] "urgent action")).sum +
        (if (orgsOf nerNone "urgent action").isEmpty then
           dictGet [("urgent", 5), ("missing_organization", 3)] "missing_organization" else 0) ∧
      (⟨[("urgent", "urgent")], [("urgent", 5), ("missing_organization", 3)]⟩ :
          PhishingDetector).suspicious_patterns.countP (entryTriggered reTest "urgent action") +
        (if (orgsOf nerNone "urgent action").isEmpty then 1 else 0) ≤ flags.length :=
  analyze_email_score_totals nerNone reTest
    ⟨[("urgent", "urgent")], [("urgent", 5), ("missing_organization", 3)]⟩
    "urgent action" (by decide)

/-- Claim C9: neither operation mutates the detector: whenever
`analyze_email` succeeds it returns the detector record unchanged, and
`print_results` always returns it unchanged. -/
theorem analyze_and_print_preserve_state :
    ∀ (nlp : NER) (re : RegexEngine) (d : PhishingDetector),
    (∀ (input : PyInput) (out : Int × List String × PhishingDetector),
      analyze_email nlp re d input = Except.ok out → out.2.2 = d) ∧
    (∀ (score : Int) (flags : List String), (print_results d score flags).2 = d) := by
  intro nlp re d
  refine ⟨?_, fun score flags => rfl⟩
  intro input out h
  match input with
  | .nonStr tag => simp [analyze_email] at h
  | .str text =>
    by_cases hs : pyStrip text = ""
    · rw [(analyze_email_rejects_invalid_input nlp re d).2 text hs] at h
      exact absurd h (by simp)
    · rw [analyze_email_str_eq nlp re d text hs] at h
      by_cases ho : (orgsOf nlp text).isEmpty <;>
        simp only [ho, if_pos, Bool.false_eq_true, ite_false, Except.ok.injEq] at h <;>
        · rw [← h]

/-- Witness for C9 at a concrete successful analysis and report. -/
theorem analyze_and_print_preserve_state_witness :
    (((3 : Int), ["No organization detected"],
       (⟨[], [("missing_organization", 3)]⟩ : PhishingDetector)) :
       Int × List String × PhishingDetector).2.2 =
      (⟨[], [("missing_organization", 3)]⟩ : PhishingDetector) ∧
    (print_results ⟨[], [("missing_organization", 3)]⟩ 3 ["No organization detected"]).2 =
      (⟨[], [("missing_organization", 3)]⟩ : PhishingDetector) :=
  ⟨(analyze_and_print_preserve_state nerNone reTest ⟨[], [("missing_organization", 3)]⟩).1
      (.str "hello") (3, ["No organization detected"], ⟨[], [("missing_organization", 3)]⟩)
      (by rfl),
   (analyze_and_print_preserve_state nerNone reTest ⟨[], [("missing_organization", 3)]⟩).2
      3 ["No organization detected"]⟩
